import Mathlib

/-!
Verification of the customer JSON file-intake pipeline.

The definitions below are a shallow embedding of the Python sources:
- `src/models/schemas.py` (the pydantic `JSONSchema` model and its validators),
- `src/utils/file_operations.py` (`wait_for_file_access`, `move_file`,
  `sanitize_data_for_logging`, `cleanup_processing_folder`),
- `src/handlers/file_handler.py` (`safe_file_copy`, `track_processing`,
  `JSONFileHandler.process_file`),
- `src/main.py` (`run_file_processor` startup ordering).

JSON values are modelled by the inductive `JsonValue`; Python dicts are
association lists with the first binding of a key authoritative (Python dict
keys are unique, so at most one binding per key occurs in practice).
Nondeterministic I/O outcomes (file readability, copy failures, random
unique-name generation) are supplied by explicit oracle parameters.
-/

inductive JsonValue where
  | null : JsonValue
  | bool (b : Bool) : JsonValue
  | num (n : Int) : JsonValue
  | str (s : String) : JsonValue
  | arr (items : List JsonValue) : JsonValue
  | obj (fields : List (String × JsonValue)) : JsonValue
deriving Repr

/-- `data is None` check from Python. -/
def JsonValue.isNull : JsonValue → Bool
  | .null => true
  | _ => false

/-- A raw parsed record: a Python dict as an association list. -/
abbrev RawRecord := List (String × JsonValue)

/-- `key in values` followed by `values[key]`: the first binding of `key`. -/
def RawRecord.get (values : RawRecord) (key : String) : Option JsonValue :=
  match values.find? (fun kv => kv.1 = key) with
  | some kv => some kv.2
  | none => none

/-! ## Sensitive-field sanitizer (`sanitize_data_for_logging`) -/

/-- `'*' * (len(value) - 4) + value[-4:]` in the masking branch. -/
def maskedCard (s : String) : String :=
  String.mk (List.replicate (s.length - 4) '*') ++ String.mk (s.data.drop (s.length - 4))

mutual

/-- Embedding of `sanitize_data_for_logging` in `src/utils/file_operations.py`:
`None` and primitives are returned as is, lists are sanitized element-wise,
and dict entries go through `sanitizeEntry`. -/
def sanitize_data_for_logging : JsonValue → JsonValue
  | .arr items => .arr (sanitizeItems items)
  | .obj fields => .obj (sanitizeFields fields)
  | v => v

def sanitizeItems : List JsonValue → List JsonValue
  | [] => []
  | v :: rest => sanitize_data_for_logging v :: sanitizeItems rest

def sanitizeFields : List (String × JsonValue) → List (String × JsonValue)
  | [] => []
  | (k, v) :: rest => (k, sanitizeEntry k v) :: sanitizeFields rest

/-- One dict entry of the Python loop: mask a `CustomerCardNumber` string of
length at least 8, recurse into dict and list values, pass everything else
through unchanged. -/
def sanitizeEntry : String → JsonValue → JsonValue
  | k, .str s =>
      if k = "CustomerCardNumber" ∧ 8 ≤ s.length then .str (maskedCard s) else .str s
  | _, .obj fields => .obj (sanitizeFields fields)
  | _, .arr items => .arr (sanitizeItems items)
  | _, v => v

end

/-! ## Structure check (`JSONSchema.check_structure`, a pre root validator) -/

inductive StructureType where
  | flat
  | nested
deriving Repr, DecidableEq

/-- `key in values and values[key] is not None`. -/
def presentNonNull (values : RawRecord) (key : String) : Bool :=
  match values.get key with
  | some v => !v.isNull
  | none => false

/-- `has_nested` in `check_structure`: the `Customer` key is present and its
value is not `None` (any non-null value qualifies, mapping or not). -/
def hasNestedCustomer (values : RawRecord) : Bool :=
  presentNonNull values "Customer"

/-- `has_direct_fields` in `check_structure`. -/
def hasDirectFields (values : RawRecord) : Bool :=
  presentNonNull values "CustomerID" && presentNonNull values "CustomerCardNumber"

inductive StructError where
  | missingIdentity
  | ambiguous
deriving Repr, DecidableEq

/-- Embedding of `JSONSchema.check_structure` in `src/models/schemas.py`:
raises on missing or ambiguous customer identity, otherwise records the
derived structure type. -/
def check_structure (values : RawRecord) : Except StructError StructureType :=
  let has_nested := hasNestedCustomer values
  let has_direct_fields := hasDirectFields values
  if !(has_direct_fields || has_nested) then .error .missingIdentity
  else if has_direct_fields && has_nested then .error .ambiguous
  else .ok (if has_nested then .nested else .flat)

/-- `isinstance(data['Customer'], dict)` test used by the spec's wording for
`has_nested` (and by the logging-only branch of `_validate_data`). -/
def customerIsMapping (values : RawRecord) : Bool :=
  match values.get "Customer" with
  | some (.obj _) => true
  | _ => false

/-! ## The pydantic `JSONSchema` model (`src/models/schemas.py`)

Field validation follows pydantic semantics: the `pre` root validator
(`check_structure`) runs first and, when it raises, validation stops with
that single error; otherwise every declared field is validated and the
per-field errors accumulate, in field declaration order. -/

/-- One entry of `ValidationError.errors()`: location and violated constraint. -/
inductive FieldError where
  | rootStruct (e : StructError)
  | missing (loc : List String)
  | notString (loc : List String)
  | tooShort (loc : List String) (minLen : Nat)
  | tooLong (loc : List String) (maxLen : Nat)
  | notAlphanumeric (loc : List String)
  | notDict (loc : List String)
deriving Repr, DecidableEq

/-- The validated nested `CustomerData` model (`extra = "allow"`). -/
structure CustomerData where
  CustomerID : String
  CustomerCardNumber : String
  CustomerDetails : Option RawRecord
  extraFields : RawRecord
deriving Repr

/-- The validated `JSONSchema` model. -/
structure JSONSchemaModel where
  OperatorID : String
  CustomerID : Option String
  CustomerCardNumber : Option String
  Customer : Option CustomerData
  Metadata : Option RawRecord
  structure_type : StructureType
deriving Repr

/-- `OperatorID: str = Field(..., min_length=5, pattern=r"^[a-zA-Z0-9]+$")`,
followed by the `validate_operator_id` `isalnum` check (subsumed by the ASCII
pattern, which runs first and only lets ASCII-alphanumeric strings through). -/
def validateOperatorID (values : RawRecord) : List FieldError :=
  match values.get "OperatorID" with
  | none => [.missing ["OperatorID"]]
  | some (.str s) =>
      if s.length < 5 then [.tooShort ["OperatorID"] 5]
      else if !(s.data.all Char.isAlphanum) then [.notAlphanumeric ["OperatorID"]]
      else []
  | some _ => [.notString ["OperatorID"]]

/-- `CustomerID: Optional[str] = Field(None, min_length=7)` at the top level. -/
def validateOptCustomerID (values : RawRecord) : List FieldError :=
  match values.get "CustomerID" with
  | none => []
  | some .null => []
  | some (.str s) => if s.length < 7 then [.tooShort ["CustomerID"] 7] else []
  | some _ => [.notString ["CustomerID"]]

/-- `CustomerCardNumber: Optional[SecretStr] = Field(None, min_length=16, max_length=16)`. -/
def validateOptCard (values : RawRecord) : List FieldError :=
  match values.get "CustomerCardNumber" with
  | none => []
  | some .null => []
  | some (.str s) =>
      if s.length < 16 then [.tooShort ["CustomerCardNumber"] 16]
      else if 16 < s.length then [.tooLong ["CustomerCardNumber"] 16]
      else []
  | some _ => [.notString ["CustomerCardNumber"]]

/-- `CustomerID: str = Field(..., min_length=7)` inside `CustomerData`. -/
def customerDataIdErrs (fields : RawRecord) : List FieldError :=
  match fields.get "CustomerID" with
  | none => [.missing ["Customer", "CustomerID"]]
  | some (.str s) => if s.length < 7 then [.tooShort ["Customer", "CustomerID"] 7] else []
  | some _ => [.notString ["Customer", "CustomerID"]]

/-- `CustomerCardNumber: SecretStr = Field(..., min_length=16, max_length=16)`
inside `CustomerData`. -/
def customerDataCardErrs (fields : RawRecord) : List FieldError :=
  match fields.get "CustomerCardNumber" with
  | none => [.missing ["Customer", "CustomerCardNumber"]]
  | some (.str s) =>
      if s.length < 16 then [.tooShort ["Customer", "CustomerCardNumber"] 16]
      else if 16 < s.length then [.tooLong ["Customer", "CustomerCardNumber"] 16]
      else []
  | some _ => [.notString ["Customer", "CustomerCardNumber"]]

/-- `CustomerDetails: Optional[Dict[str, Any]]` inside `CustomerData`. -/
def customerDataDetailsErrs (fields : RawRecord) : List FieldError :=
  match fields.get "CustomerDetails" with
  | none => []
  | some .null => []
  | some (.obj _) => []
  | some _ => [.notDict ["Customer", "CustomerDetails"]]

/-- Validation of the nested `CustomerData` model: required `CustomerID`
(min length 7), required `CustomerCardNumber` (exactly 16 characters),
optional dict `CustomerDetails`; extra fields are allowed and preserved. -/
def validateCustomerData (fields : RawRecord) : Except (List FieldError) CustomerData :=
  match customerDataIdErrs fields ++ customerDataCardErrs fields
      ++ customerDataDetailsErrs fields with
  | [] =>
      .ok
        { CustomerID := match fields.get "CustomerID" with | some (.str s) => s | _ => ""
          CustomerCardNumber :=
            match fields.get "CustomerCardNumber" with | some (.str s) => s | _ => ""
          CustomerDetails :=
            match fields.get "CustomerDetails" with | some (.obj d) => some d | _ => none
          extraFields :=
            fields.filter (fun kv =>
              kv.1 ≠ "CustomerID" && kv.1 ≠ "CustomerCardNumber" && kv.1 ≠ "CustomerDetails") }
  | errs => .error errs

/-- `Customer: Optional[CustomerData] = None`. -/
def validateOptCustomer (values : RawRecord) :
    Except (List FieldError) (Option CustomerData) :=
  match values.get "Customer" with
  | none => .ok none
  | some .null => .ok none
  | some (.obj fields) => (validateCustomerData fields).map some
  | some _ => .error [.notDict ["Customer"]]

/-- `Metadata: Optional[Dict[str, Any]] = Field(default=None)`. -/
def validateOptMetadata (values : RawRecord) : List FieldError :=
  match values.get "Metadata" with
  | none => []
  | some .null => []
  | some (.obj _) => []
  | some _ => [.notDict ["Metadata"]]

/-- Embedding of constructing `JSONSchema(**data)`: the `pre` root validator
`check_structure` first (its error short-circuits the whole validation);
then each field is validated and errors accumulate in declaration order. -/
def JSONSchema.validate (values : RawRecord) : Except (List FieldError) JSONSchemaModel :=
  match check_structure values with
  | .error e => .error [.rootStruct e]
  | .ok stype =>
      let opErrs := validateOperatorID values
      let cidErrs := validateOptCustomerID values
      let cardErrs := validateOptCard values
      let custRes := validateOptCustomer values
      let custErrs := match custRes with | .error es => es | .ok _ => []
      let metaErrs := validateOptMetadata values
      match opErrs ++ cidErrs ++ cardErrs ++ custErrs ++ metaErrs with
      | [] =>
          .ok
            { OperatorID := match values.get "OperatorID" with | some (.str s) => s | _ => ""
              CustomerID := match values.get "CustomerID" with | some (.str s) => some s | _ => none
              CustomerCardNumber :=
                match values.get "CustomerCardNumber" with | some (.str s) => some s | _ => none
              Customer := match custRes with | .ok c => c | .error _ => none
              Metadata := match values.get "Metadata" with | some (.obj d) => some d | _ => none
              structure_type := stype }
      | errs => .error errs

/-- `'*' * 8` in `get_card_number_masked`. -/
def eightStars : String := String.mk (List.replicate 8 '*')

/-- Embedding of `JSONSchema.get_card_number_masked`: select the card by
structure type (a `None` there would raise in Python, modelled as `none`),
then `f"{raw[:4]}{'*' * 8}{raw[-4:]}" if raw else ""` with Python's
character-based slicing. -/
def JSONSchemaModel.get_card_number_masked (m : JSONSchemaModel) : Option String :=
  let rawOpt :=
    match m.structure_type with
    | .nested => m.Customer.map (fun c => c.CustomerCardNumber)
    | .flat => m.CustomerCardNumber
  match rawOpt with
  | none => none
  | some raw =>
      some (if raw = "" then ""
            else String.mk (raw.data.take 4) ++ eightStars
                 ++ String.mk (raw.data.drop (raw.data.length - 4)))

/-! ## File access wait (`wait_for_file_access`, `src/utils/file_operations.py`) -/

/-- `config.FILE_ACCESS_MAX_ATTEMPTS`. -/
def FILE_ACCESS_MAX_ATTEMPTS : Nat := 10

/-- `config.FILE_MOVE_MAX_ATTEMPTS`. -/
def FILE_MOVE_MAX_ATTEMPTS : Nat := 3

/-- What one poll of the file observes: `os.path.exists` false, a
`PermissionError`/`OSError` on the 1-byte read, or a successful read. -/
inductive AccessStatus where
  | notExists
  | readError
  | readable
deriving Repr, DecidableEq

/-- `max_attempts = max_attempts or config.FILE_ACCESS_MAX_ATTEMPTS`: both
`None` and `0` are falsy in Python, so both fall back to the default. -/
def effectiveAccessAttempts (max_attempts : Option Nat) : Nat :=
  match max_attempts with
  | none => FILE_ACCESS_MAX_ATTEMPTS
  | some 0 => FILE_ACCESS_MAX_ATTEMPTS
  | some n => n

/-- The `for attempt in range(max_attempts)` loop of `wait_for_file_access`;
returns the result together with the number of polls performed. -/
def waitLoop (status : Nat → AccessStatus) (attempt remaining : Nat) : Bool × Nat :=
  match remaining with
  | 0 => (false, 0)
  | r + 1 =>
      match status attempt with
      | .readable => (true, 1)
      | _ =>
          let p := waitLoop status (attempt + 1) r
          (p.1, p.2 + 1)

/-- Embedding of `wait_for_file_access`: the poll outcomes are supplied by
the oracle `status` (attempt index to observation). -/
def wait_for_file_access (status : Nat → AccessStatus) (max_attempts : Option Nat) :
    Bool × Nat :=
  waitLoop status 0 (effectiveAccessAttempts max_attempts)

/-! ## Router (`move_file`, `src/utils/file_operations.py`) -/

/-- The destination folder: file name to file content. -/
abbrev Folder := List (String × String)

def Folder.get : Folder → String → Option String
  | [], _ => none
  | kv :: rest, name => if kv.1 == name then some kv.2 else Folder.get rest name

/-- `shutil.copy2(source, dest)`: writes `content` at `name`, silently
replacing any file already there (the file names of a folder are unique,
so replacing the first binding is replacing the file). -/
def Folder.put : Folder → String → String → Folder
  | [], name, content => [(name, content)]
  | kv :: rest, name, content =>
      if kv.1 == name then (kv.1, content) :: rest
      else kv :: Folder.put rest name content

/-- Oracles for `move_file`: the random `str(uuid.uuid4())[:8]` drawn at a
given attempt, and whether `shutil.copy2` raises at a given attempt. -/
structure MoveEnv where
  altIds : Nat → String
  copyFails : Nat → Bool

/-- `max_attempts = max_attempts or config.FILE_MOVE_MAX_ATTEMPTS`. -/
def effectiveMoveAttempts (max_attempts : Option Nat) : Nat :=
  match max_attempts with
  | none => FILE_MOVE_MAX_ATTEMPTS
  | some 0 => FILE_MOVE_MAX_ATTEMPTS
  | some n => n

/-- The retry loop of `move_file`. `dest_path` persists across iterations
(the Python variable is mutated in place); on each iteration, if a file
exists at `dest_path` the target is renamed once to
`f"{str(uuid.uuid4())[:8]}_{filename}"`, then `shutil.copy2` runs (which
replaces whatever is at the resolved target). -/
def moveLoop (env : MoveEnv) (source : String) (filename : String) (folder : Folder)
    (dest_path : String) (attempt remaining : Nat) : Bool × Folder :=
  match remaining with
  | 0 => (false, folder)
  | r + 1 =>
      let dest :=
        if (folder.get dest_path).isSome then env.altIds attempt ++ "_" ++ filename
        else dest_path
      if env.copyFails attempt then
        moveLoop env source filename folder dest (attempt + 1) r
      else
        (true, folder.put dest source)

/-- Embedding of `move_file`: `dest_path` starts at
`os.path.join(dest_folder, filename)` (folder-local, so just `filename`). -/
def move_file (env : MoveEnv) (source : String) (folder : Folder) (filename : String)
    (max_attempts : Option Nat) : Bool × Folder :=
  moveLoop env source filename folder filename 0 (effectiveMoveAttempts max_attempts)

/-! ## Stager (`safe_file_copy`, `src/handlers/file_handler.py`) -/

/-- Oracles for `safe_file_copy`: whether the makedirs-and-byte-copy phase
raises `PermissionError`/`OSError`, and whether `os.remove` does. -/
structure CopyEnv where
  copyOk : Bool
  removeOk : Bool
deriving Repr, DecidableEq

/-- Observable outcome of `safe_file_copy`. -/
structure CopyResult where
  ret : Bool
  copied : Bool
  removeAttempted : Bool
  originalRemoved : Bool
deriving Repr, DecidableEq

/-- Embedding of `safe_file_copy`: the copy phase is wrapped in the outer
`try`; only after it succeeds is `os.remove` attempted, in an inner `try`
whose failure is logged and swallowed. -/
def safe_file_copy (env : CopyEnv) : CopyResult :=
  if env.copyOk then
    if env.removeOk then
      { ret := true, copied := true, removeAttempted := true, originalRemoved := true }
    else
      { ret := true, copied := true, removeAttempted := true, originalRemoved := false }
  else
    { ret := false, copied := false, removeAttempted := false, originalRemoved := false }

/-! ## Startup recovery (`cleanup_processing_folder`, `run_file_processor`) -/

/-- One entry of `os.listdir(config.PROCESSING_FOLDER)` together with its
`os.path.isfile` observation. -/
structure DirEntry where
  name : String
  isFile : Bool
deriving Repr, DecidableEq

/-- Embedding of `cleanup_processing_folder`: every regular file is moved to
the returns folder when `shutil.move` succeeds (`moveOk`), a failed move is
logged and skipped; the count of successful moves and the list of names now
in the returns folder are returned. -/
def cleanup_processing_folder (moveOk : String → Bool) :
    List DirEntry → Nat × List String
  | [] => (0, [])
  | e :: rest =>
      if e.isFile && moveOk e.name then
        let (c, moved) := cleanup_processing_folder moveOk rest
        (c + 1, e.name :: moved)
      else
        cleanup_processing_folder moveOk rest

/-- The startup steps of `run_file_processor` (`src/main.py`), in program
order. -/
inductive StartupAction where
  | setupLogging
  | registerSignals
  | checkRequirements
  | ensureDirs
  | cleanupProcessing (count : Nat)
  | scheduleObserver
  | startWatch
  | processExisting
deriving Repr, DecidableEq

/-- Embedding of the startup part of `run_file_processor`: the trace of
actions performed before the main loop, and the early exit code (`some 1`)
when a startup check fails. -/
def run_file_processor (reqOk dirsOk : Bool) (cleanupCount : Nat) :
    List StartupAction × Option Nat :=
  let t0 := [StartupAction.setupLogging, StartupAction.registerSignals]
  if !reqOk then (t0 ++ [StartupAction.checkRequirements], some 1)
  else if !dirsOk then
    (t0 ++ [StartupAction.checkRequirements, StartupAction.ensureDirs], some 1)
  else
    (t0 ++ [StartupAction.checkRequirements, StartupAction.ensureDirs,
            StartupAction.cleanupProcessing cleanupCount, StartupAction.scheduleObserver,
            StartupAction.startWatch, StartupAction.processExisting], none)

/-! ## Pipeline orchestrator (`JSONFileHandler.process_file`)

The handler state tracks the in-flight set (`processing_files`), the staged
names present in the processing area, the number of files in each terminal
folder, and how many notifications and downstream forwards were attempted.
The effects of the nested helpers on the watched folder itself are covered
separately by `safe_file_copy`. -/

structure PipelineState where
  processing_files : List String
  processingFolder : List String
  validatedCount : Nat
  returnsCount : Nat
  emailsSent : Nat
  forwards : Nat
deriving Repr, DecidableEq

/-- Per-call oracles for one `process_file` invocation: the random unique-id,
the outcomes of the access wait, the staging copy, the JSON parse, the
terminal-folder `move_file`, and the third-party transmission. -/
structure ProcEnv where
  uniqueId : String
  waitOk : Bool
  copyOk : Bool
  loadResult : Except String RawRecord
  routeOk : Bool
  thirdPartyOk : Bool

/-- `JSONFileHandler._handle_error`: `move_file` to the returns folder (its
failure is ignored), then `send_error_email`. -/
def handle_error (st : PipelineState) (routeOk : Bool) : PipelineState :=
  { st with
    returnsCount := if routeOk then st.returnsCount + 1 else st.returnsCount
    emailsSent := st.emailsSent + 1 }

/-- `JSONFileHandler._handle_valid_file`: `move_file` to the validated folder
(failure returns `False` with no notification), then `send_to_third_party`,
whose result is returned. -/
def handle_valid_file (env : ProcEnv) (st : PipelineState) : Bool × PipelineState :=
  if !env.routeOk then (false, st)
  else
    (env.thirdPartyOk,
     { st with validatedCount := st.validatedCount + 1, forwards := st.forwards + 1 })

/-- `JSONFileHandler._process_json_file`: parse, validate against
`JSONSchema`, and dispatch to the error or success handler. Its catch-all
`except Exception` also lands in `handle_error`, so no exception escapes. -/
def process_json_file (env : ProcEnv) (st : PipelineState) : Bool × PipelineState :=
  match env.loadResult with
  | .error _ => (false, handle_error st env.routeOk)
  | .ok data =>
      match JSONSchema.validate data with
      | .error _ => (false, handle_error st env.routeOk)
      | .ok _ => handle_valid_file env st

/-- The body of the `with track_processing(self, file_path)` block of
`JSONFileHandler.process_file`: wait for access, stage via `safe_file_copy`
into the processing folder under `uname`, run `_process_json_file`, and in
the inner `finally` remove the staged copy (`safe_file_cleanup`). -/
def process_file_body (env : ProcEnv) (st1 : PipelineState) (uname : String) :
    Bool × PipelineState :=
  if !env.waitOk then (false, st1)
  else if !env.copyOk then (false, st1)
  else
    let sta := { st1 with processingFolder := st1.processingFolder ++ [uname] }
    let q := process_json_file env sta
    (q.1, { q.2 with processingFolder := (q.2).processingFolder.erase uname })

/-- Embedding of `JSONFileHandler.process_file`. A path already in
`processing_files` is skipped with no effect. Otherwise the path is tracked
by the `track_processing` context manager, whose `finally` discards it on
every exit of the body, exceptional exits included. -/
def process_file (env : ProcEnv) (st : PipelineState) (file_path : String) :
    Bool × PipelineState :=
  if file_path ∈ st.processing_files then (false, st)
  else
    let st1 := { st with processing_files := file_path :: st.processing_files }
    let p := process_file_body env st1 (env.uniqueId ++ "_" ++ file_path)
    (p.1, { p.2 with processing_files := (p.2).processing_files.erase file_path })

/-! ## Auxiliary definitions: the "no maskable card field" predicate and
concrete test fixtures used by the theorems -/

mutual

def noLongCard : JsonValue → Bool
  | .arr items => noLongCardItems items
  | .obj fields => noLongCardFields fields
  | _ => true

def noLongCardItems : List JsonValue → Bool
  | [] => true
  | v :: rest => noLongCard v && noLongCardItems rest

def noLongCardFields : List (String × JsonValue) → Bool
  | [] => true
  | (k, v) :: rest => noLongCardEntry k v && noLongCardFields rest

def noLongCardEntry : String → JsonValue → Bool
  | k, .str s => !(k == "CustomerCardNumber" && decide (8 ≤ s.length))
  | _, .obj fields => noLongCardFields fields
  | _, .arr items => noLongCardItems items
  | _, _ => true

end

/-- A record with valid flat fields plus a non-mapping `Customer` value. -/
def flatPlusStringCustomer : RawRecord :=
  [("OperatorID", .str "OP123"), ("CustomerID", .str "CUST0001"),
   ("CustomerCardNumber", .str "1234567812345678"), ("Customer", .str "not-a-mapping")]

/-- Test fixture: a flat record with the three relevant fields. -/
def flatRecord (op cid card : String) : RawRecord :=
  [("OperatorID", .str op), ("CustomerID", .str cid), ("CustomerCardNumber", .str card)]

/-- The `Customer` object fields of `nestedRecord`. -/
def custFields (cid card : String) (details : Option RawRecord) : RawRecord :=
  [("CustomerID", .str cid), ("CustomerCardNumber", .str card)] ++
    (match details with
     | some d => [("CustomerDetails", JsonValue.obj d)]
     | none => [])

/-- Test fixture: a nested record, with optional `CustomerDetails`. -/
def nestedRecord (op cid card : String) (details : Option RawRecord) : RawRecord :=
  [("OperatorID", .str op), ("Customer", .obj (custFields cid card details))]

def missingIdentityBadOperator : RawRecord := [("OperatorID", .str "op")]

def clashFolder : Folder := [("f.json", "old1"), ("ab12cd34_f.json", "old2")]

def clashEnv : MoveEnv := { altIds := fun _ => "ab12cd34", copyFails := fun _ => false }

def procEnvOk : ProcEnv :=
  { uniqueId := "abcd1234", waitOk := true, copyOk := true,
    loadResult := .ok (flatRecord "OP123" "CUST0001" "4111111111111111"),
    routeOk := true, thirdPartyOk := true }

/-! ## Helper lemmas -/

mutual

theorem sanitize_fix : ∀ v, noLongCard v = true → sanitize_data_for_logging v = v
  | .null, _ => rfl
  | .bool _, _ => rfl
  | .num _, _ => rfl
  | .str _, _ => rfl
  | .arr items, h => by
      rw [sanitize_data_for_logging, sanitizeItems_fix items h]
  | .obj fields, h => by
      rw [sanitize_data_for_logging, sanitizeFields_fix fields h]

theorem sanitizeItems_fix : ∀ items, noLongCardItems items = true → sanitizeItems items = items
  | [], _ => rfl
  | v :: rest, h => by
      rw [noLongCardItems, Bool.and_eq_true] at h
      rw [sanitizeItems, sanitize_fix v h.1, sanitizeItems_fix rest h.2]

theorem sanitizeFields_fix :
    ∀ fields, noLongCardFields fields = true → sanitizeFields fields = fields
  | [], _ => rfl
  | (k, v) :: rest, h => by
      rw [noLongCardFields, Bool.and_eq_true] at h
      rw [sanitizeFields, sanitizeEntry_fix k v h.1, sanitizeFields_fix rest h.2]

theorem sanitizeEntry_fix : ∀ k v, noLongCardEntry k v = true → sanitizeEntry k v = v
  | k, .str s, h => by
      rw [sanitizeEntry, if_neg]
      intro hc
      rw [noLongCardEntry] at h
      simp only [Bool.not_eq_true', Bool.and_eq_false_iff, beq_eq_false_iff_ne,
        decide_eq_false_iff_not] at h
      rcases h with h | h
      · exact h hc.1
      · exact h hc.2
  | k, .obj fields, h => by
      rw [sanitizeEntry, sanitizeFields_fix fields h]
  | k, .arr items, h => by
      rw [sanitizeEntry, sanitizeItems_fix items h]
  | _, .null, _ => rfl
  | _, .bool _, _ => rfl
  | _, .num _, _ => rfl

end

theorem validateOperatorID_ok (values : RawRecord) (s : String)
    (hget : values.get "OperatorID" = some (.str s))
    (h1 : 5 ≤ s.length) (h2 : s.data.all Char.isAlphanum = true) :
    validateOperatorID values = [] := by
  unfold validateOperatorID
  rw [hget]
  dsimp only
  rw [if_neg (by omega), h2]
  rfl

theorem validateOptCustomerID_ok (values : RawRecord) (s : String)
    (hget : values.get "CustomerID" = some (.str s)) (h : 7 ≤ s.length) :
    validateOptCustomerID values = [] := by
  unfold validateOptCustomerID
  rw [hget]
  dsimp only
  rw [if_neg (by omega)]

theorem validateOptCard_ok (values : RawRecord) (s : String)
    (hget : values.get "CustomerCardNumber" = some (.str s)) (h : s.length = 16) :
    validateOptCard values = [] := by
  unfold validateOptCard
  rw [hget]
  dsimp only
  rw [if_neg (by omega), if_neg (by omega)]

theorem customerDataIdErrs_ok (fields : RawRecord) (s : String)
    (hget : fields.get "CustomerID" = some (.str s)) (h : 7 ≤ s.length) :
    customerDataIdErrs fields = [] := by
  unfold customerDataIdErrs
  rw [hget]
  dsimp only
  rw [if_neg (by omega)]

theorem customerDataCardErrs_ok (fields : RawRecord) (s : String)
    (hget : fields.get "CustomerCardNumber" = some (.str s)) (h : s.length = 16) :
    customerDataCardErrs fields = [] := by
  unfold customerDataCardErrs
  rw [hget]
  dsimp only
  rw [if_neg (by omega), if_neg (by omega)]

theorem validateCustomerData_ok (cid card : String) (details : Option RawRecord)
    (h3 : 7 ≤ cid.length) (h4 : card.length = 16) :
    validateCustomerData (custFields cid card details)
      = .ok { CustomerID := cid, CustomerCardNumber := card,
              CustomerDetails := details, extraFields := [] } := by
  unfold validateCustomerData
  rw [customerDataIdErrs_ok (custFields cid card details) cid
        (by cases details <;> rfl) h3,
      customerDataCardErrs_ok (custFields cid card details) card
        (by cases details <;> rfl) h4]
  cases details <;> rfl

theorem validate_flatRecord (op cid card : String)
    (h1 : 5 ≤ op.length) (h2 : op.data.all Char.isAlphanum = true)
    (h3 : 7 ≤ cid.length) (h4 : card.length = 16) :
    JSONSchema.validate (flatRecord op cid card) =
      .ok { OperatorID := op, CustomerID := some cid, CustomerCardNumber := some card,
            Customer := none, Metadata := none, structure_type := .flat } := by
  unfold JSONSchema.validate
  rw [show check_structure (flatRecord op cid card) = .ok .flat from rfl]
  rw [validateOperatorID_ok (flatRecord op cid card) op rfl h1 h2,
      validateOptCustomerID_ok (flatRecord op cid card) cid rfl h3,
      validateOptCard_ok (flatRecord op cid card) card rfl h4]
  rfl

theorem validate_nestedRecord (op cid card : String) (details : Option RawRecord)
    (h1 : 5 ≤ op.length) (h2 : op.data.all Char.isAlphanum = true)
    (h3 : 7 ≤ cid.length) (h4 : card.length = 16) :
    JSONSchema.validate (nestedRecord op cid card details) =
      .ok { OperatorID := op, CustomerID := none, CustomerCardNumber := none,
            Customer := some { CustomerID := cid, CustomerCardNumber := card,
                               CustomerDetails := details, extraFields := [] },
            Metadata := none, structure_type := .nested } := by
  unfold JSONSchema.validate
  rw [show check_structure (nestedRecord op cid card details) = .ok .nested from
        by cases details <;> rfl]
  rw [validateOperatorID_ok (nestedRecord op cid card details) op
        (by cases details <;> rfl) h1 h2]
  rw [show validateOptCustomer (nestedRecord op cid card details)
        = (validateCustomerData (custFields cid card details)).map some from
        by cases details <;> rfl]
  rw [validateCustomerData_ok cid card details h3 h4]
  cases details <;> rfl

theorem validateOperatorID_short (values : RawRecord) (s : String)
    (hget : values.get "OperatorID" = some (.str s)) (h : s.length < 5) :
    validateOperatorID values = [.tooShort ["OperatorID"] 5] := by
  unfold validateOperatorID
  rw [hget]
  dsimp only
  rw [if_pos h]

theorem validateOptCustomerID_short (values : RawRecord) (s : String)
    (hget : values.get "CustomerID" = some (.str s)) (h : s.length < 7) :
    validateOptCustomerID values = [.tooShort ["CustomerID"] 7] := by
  unfold validateOptCustomerID
  rw [hget]
  dsimp only
  rw [if_pos h]

theorem waitLoop_polls_le (status : Nat → AccessStatus) (remaining : Nat) :
    ∀ attempt, (waitLoop status attempt remaining).2 ≤ remaining := by
  induction remaining with
  | zero => intro attempt; exact Nat.le_refl 0
  | succ r ih =>
      intro attempt
      rw [waitLoop]
      cases status attempt
      · exact Nat.succ_le_succ (ih (attempt + 1))
      · exact Nat.succ_le_succ (ih (attempt + 1))
      · exact Nat.succ_le_succ (Nat.zero_le r)

theorem waitLoop_true_iff (status : Nat → AccessStatus) (remaining : Nat) :
    ∀ attempt, (waitLoop status attempt remaining).1 = true ↔
      ∃ i < remaining, status (attempt + i) = .readable := by
  induction remaining with
  | zero =>
      intro attempt
      simp [waitLoop]
  | succ r ih =>
      intro attempt
      rw [waitLoop]
      cases h : status attempt with
      | readable =>
          simp only [true_iff]
          exact ⟨0, Nat.succ_pos r, by simpa using h⟩
      | notExists =>
          dsimp only
          rw [ih (attempt + 1)]
          constructor
          · rintro ⟨i, hi, hr⟩
            exact ⟨i + 1, by omega, by rw [show attempt + (i + 1) = attempt + 1 + i from by omega]; exact hr⟩
          · rintro ⟨i, hi, hr⟩
            cases i with
            | zero => rw [Nat.add_zero] at hr; rw [hr] at h; cases h
            | succ j =>
                exact ⟨j, by omega, by rw [show attempt + 1 + j = attempt + (j + 1) from by omega]; exact hr⟩
      | readError =>
          dsimp only
          rw [ih (attempt + 1)]
          constructor
          · rintro ⟨i, hi, hr⟩
            exact ⟨i + 1, by omega, by rw [show attempt + (i + 1) = attempt + 1 + i from by omega]; exact hr⟩
          · rintro ⟨i, hi, hr⟩
            cases i with
            | zero => rw [Nat.add_zero] at hr; rw [hr] at h; cases h
            | succ j =>
                exact ⟨j, by omega, by rw [show attempt + 1 + j = attempt + (j + 1) from by omega]; exact hr⟩

theorem waitLoop_first (status : Nat → AccessStatus) (remaining : Nat) :
    ∀ attempt i, i < remaining → status (attempt + i) = .readable →
      (∀ j < i, status (attempt + j) ≠ .readable) →
      waitLoop status attempt remaining = (true, i + 1) := by
  induction remaining with
  | zero => intro _ i hi; omega
  | succ r ih =>
      intro attempt i hi hr hmin
      rw [waitLoop]
      cases i with
      | zero =>
          rw [Nat.add_zero] at hr
          rw [hr]
      | succ k =>
          have h0 : status attempt ≠ .readable := by
            have := hmin 0 (Nat.succ_pos k)
            rwa [Nat.add_zero] at this
          have hrec : waitLoop status (attempt + 1) r = (true, k + 1) := by
            refine ih (attempt + 1) k (by omega) ?_ ?_
            · rw [show attempt + 1 + k = attempt + (k + 1) from by omega]; exact hr
            · intro j hj
              rw [show attempt + 1 + j = attempt + (j + 1) from by omega]
              exact hmin (j + 1) (by omega)
          cases hs : status attempt with
          | readable => exact absurd hs h0
          | notExists => dsimp only; rw [hrec]
          | readError => dsimp only; rw [hrec]

theorem waitLoop_exhausted (status : Nat → AccessStatus) (remaining : Nat) :
    ∀ attempt, (∀ i < remaining, status (attempt + i) ≠ .readable) →
      waitLoop status attempt remaining = (false, remaining) := by
  induction remaining with
  | zero => intro attempt _; rfl
  | succ r ih =>
      intro attempt hall
      rw [waitLoop]
      have h0 : status attempt ≠ .readable := by
        have := hall 0 (Nat.succ_pos r)
        rwa [Nat.add_zero] at this
      have hrec : waitLoop status (attempt + 1) r = (false, r) := by
        refine ih (attempt + 1) (fun i hi => ?_)
        rw [show attempt + 1 + i = attempt + (i + 1) from by omega]
        exact hall (i + 1) (by omega)
      cases hs : status attempt with
      | readable => exact absurd hs h0
      | notExists => dsimp only; rw [hrec]
      | readError => dsimp only; rw [hrec]

theorem Folder.get_put_self (f : Folder) (name content : String) :
    (Folder.put f name content).get name = some content := by
  induction f with
  | nil => simp [Folder.put, Folder.get]
  | cons kv rest ih =>
      rw [Folder.put]
      cases hb : kv.1 == name
      · rw [if_neg (by simp [hb]), Folder.get, if_neg (by simp [hb])]
        exact ih
      · rw [if_pos (by simp [hb]), Folder.get, if_pos (by simp [hb])]

theorem Folder.get_put_ne (f : Folder) (name content m : String) (hne : m ≠ name) :
    (Folder.put f name content).get m = f.get m := by
  have hnb : (name == m) = false := by
    rcases Bool.eq_false_or_eq_true (name == m) with h | h
    · exact absurd (beq_iff_eq.mp h).symm hne
    · exact h
  induction f with
  | nil => simp [Folder.put, Folder.get, hnb]
  | cons kv rest ih =>
      rw [Folder.put]
      cases hb : kv.1 == name
      · rw [if_neg (by simp [hb]), Folder.get, Folder.get]
        cases hm : kv.1 == m
        · rw [if_neg (by simp [hm]), if_neg (by simp [hm])]
          exact ih
        · rw [if_pos (by simp [hm]), if_pos (by simp [hm])]
      · have h1 : kv.1 = name := beq_iff_eq.mp hb
        have hm : (kv.1 == m) = false := h1 ▸ hnb
        rw [if_pos (by simp [hb]), Folder.get, Folder.get, if_neg (by simp [hm]),
          if_neg (by simp [hm])]

theorem alt_ne_filename (a b : String) : a ++ "_" ++ b ≠ b := by
  intro h
  have hl := congrArg String.length h
  rw [String.length_append, String.length_append] at hl
  have : ("_" : String).length = 1 := rfl
  omega

theorem moveLoop_preserves (env : MoveEnv) (source filename : String) :
    ∀ (remaining : Nat) (folder : Folder) (dest_path : String) (attempt : Nat) (c : String),
      folder.get filename = some c →
      ((moveLoop env source filename folder dest_path attempt remaining).2).get filename
        = some c := by
  intro remaining
  induction remaining with
  | zero => intro folder dest_path attempt c h; exact h
  | succ r ih =>
      intro folder dest_path attempt c h
      rw [moveLoop]
      cases hcf : env.copyFails attempt
      · rw [if_neg (by simp [hcf])]
        dsimp only
        by_cases hex : (folder.get dest_path).isSome
        · rw [if_pos hex, Folder.get_put_ne]
          · exact h
          · exact (alt_ne_filename (env.altIds attempt) filename).symm
        · rw [if_neg hex, Folder.get_put_ne]
          · exact h
          · intro heq
            rw [← heq] at hex
            exact hex (by rw [h]; rfl)
      · rw [if_pos (by simp [hcf])]
        exact ih folder _ (attempt + 1) c h

theorem one_le_effectiveMoveAttempts (ma : Option Nat) :
    1 ≤ effectiveMoveAttempts ma := by
  cases ma with
  | none => decide
  | some n => cases n with
    | zero => decide
    | succ k => exact Nat.succ_le_succ (Nat.zero_le k)

theorem process_json_file_tracker (env : ProcEnv) (s : PipelineState) :
    ((process_json_file env s).2).processing_files = s.processing_files := by
  unfold process_json_file handle_error handle_valid_file
  cases hl : env.loadResult with
  | error e => rfl
  | ok data =>
      cases hv : JSONSchema.validate data with
      | error es => simp [hv]
      | ok m => cases hr : env.routeOk <;> simp [hv, hr]

theorem process_json_file_terminal_le (env : ProcEnv) (s : PipelineState) :
    ((process_json_file env s).2).validatedCount + ((process_json_file env s).2).returnsCount
      ≤ s.validatedCount + s.returnsCount + 1 := by
  unfold process_json_file handle_error handle_valid_file
  cases hl : env.loadResult with
  | error e => cases hr : env.routeOk <;> (simp [hr]; try omega)
  | ok data =>
      cases hv : JSONSchema.validate data with
      | error es => cases hr : env.routeOk <;> (simp [hv, hr]; try omega)
      | ok m => cases hr : env.routeOk <;> (simp [hv, hr]; try omega)

theorem process_file_body_tracker (env : ProcEnv) (s : PipelineState) (u : String) :
    ((process_file_body env s u).2).processing_files = s.processing_files := by
  unfold process_file_body
  cases hw : env.waitOk
  · simp
  · cases hc : env.copyOk
    · simp
    · simp only [Bool.not_true, Bool.false_eq_true, if_false]
      rw [process_json_file_tracker]

theorem process_file_body_terminal_le (env : ProcEnv) (s : PipelineState) (u : String) :
    ((process_file_body env s u).2).validatedCount
      + ((process_file_body env s u).2).returnsCount
      ≤ s.validatedCount + s.returnsCount + 1 := by
  unfold process_file_body
  cases hw : env.waitOk
  · simp
  · cases hc : env.copyOk
    · simp
    · simp only [Bool.not_true, Bool.false_eq_true, if_false]
      have := process_json_file_terminal_le env
        { s with processingFolder := s.processingFolder ++ [u] }
      simpa using this

/-! ## Claim theorems -/

/-- C1: counterexample. A record with valid flat fields plus a non-mapping
(non-null) `Customer` value: the claim says it is not nested and not
ambiguous, but `check_structure` counts any non-null `Customer` value as
nested and rejects the record as ambiguous. -/
theorem C1_counterexample :
    check_structure flatPlusStringCustomer = .error .ambiguous
    ∧ customerIsMapping flatPlusStringCustomer = false
    ∧ hasDirectFields flatPlusStringCustomer = true := ⟨rfl, rfl, rfl⟩

/-- C1 (amended): `check_structure` determines `has_nested` as the `Customer`
key being present with a non-null value (a mapping is not required), and
`has_flat` as both `CustomerID` and `CustomerCardNumber` present and
non-null; it rejects with "missing customer identity" exactly when neither
holds, rejects with "ambiguous structure" exactly when both hold — so a
record with valid flat fields plus a non-mapping non-null `Customer` value
is ambiguous — and otherwise tags the record nested or flat. -/
theorem C1_amended (values : RawRecord) :
    (check_structure values = .error .missingIdentity ↔
      hasDirectFields values = false ∧ hasNestedCustomer values = false)
    ∧ (check_structure values = .error .ambiguous ↔
      hasDirectFields values = true ∧ hasNestedCustomer values = true)
    ∧ (hasNestedCustomer values = true → hasDirectFields values = false →
      check_structure values = .ok .nested)
    ∧ (hasDirectFields values = true → hasNestedCustomer values = false →
      check_structure values = .ok .flat) := by
  unfold check_structure
  cases h1 : hasDirectFields values <;> cases h2 : hasNestedCustomer values <;> simp

/-- C1 witness: the amended theorem applied to a concrete nested-only
record. -/
theorem C1_amended_witness :
    check_structure [("Customer", JsonValue.obj [])] = .ok .nested :=
  (C1_amended [("Customer", JsonValue.obj [])]).2.2.1 rfl rfl

/-- C2: counterexample. A `CustomerCardNumber` string of length 7 passes
through `sanitize_data_for_logging` unchanged, instead of becoming the
4-asterisk placeholder the claim requires. -/
theorem C2_counterexample :
    sanitize_data_for_logging (.obj [("CustomerCardNumber", .str "1234567")])
      = .obj [("CustomerCardNumber", .str "1234567")]
    ∧ ("1234567" : String) ≠ String.mk (List.replicate 4 '*') := ⟨rfl, by decide⟩

/-- C2 (amended): `sanitize_data_for_logging` recurses over mappings and
sequences; a `CustomerCardNumber` field whose value is a string of length at
least 8 becomes `(len-4)` asterisks followed by its last 4 characters; every
other value — including `CustomerCardNumber` strings shorter than 8
characters, which are not replaced by any placeholder — passes through
unchanged, at arbitrary nesting depth. -/
theorem C2_amended :
    (∀ fields, sanitize_data_for_logging (.obj fields)
        = .obj (fields.map (fun kv => (kv.1, sanitizeEntry kv.1 kv.2))))
    ∧ (∀ items, sanitize_data_for_logging (.arr items)
        = .arr (items.map sanitize_data_for_logging))
    ∧ (∀ s : String, 8 ≤ s.length →
        sanitizeEntry "CustomerCardNumber" (.str s) = .str (maskedCard s))
    ∧ (∀ s : String, s.length < 8 →
        sanitizeEntry "CustomerCardNumber" (.str s) = .str s)
    ∧ (∀ v, noLongCard v = true → sanitize_data_for_logging v = v)
    ∧ sanitize_data_for_logging (.obj [("CustomerCardNumber", .str "1234567812345678")])
        = .obj [("CustomerCardNumber", .str "************5678")] := by
  refine ⟨?_, ?_, ?_, ?_, sanitize_fix, rfl⟩
  · intro fields
    rw [sanitize_data_for_logging]
    congr 1
    induction fields with
    | nil => rfl
    | cons kv rest ih => rw [sanitizeFields]; cases kv; simp [ih]
  · intro items
    rw [sanitize_data_for_logging]
    congr 1
    induction items with
    | nil => rfl
    | cons v rest ih => rw [sanitizeItems]; simp [ih]
  · intro s h
    rw [sanitizeEntry, if_pos ⟨rfl, h⟩]
  · intro s h
    rw [sanitizeEntry, if_neg]
    rintro ⟨-, h8⟩
    omega

/-- C2 witness: the amended theorem applied to concrete inputs. -/
theorem C2_amended_witness :
    sanitizeEntry "CustomerCardNumber" (.str "1234567812345678")
        = .str (maskedCard "1234567812345678")
    ∧ sanitizeEntry "CustomerCardNumber" (.str "1234567") = .str "1234567"
    ∧ sanitize_data_for_logging (.obj [("ok", .str "v")]) = .obj [("ok", .str "v")] :=
  ⟨C2_amended.2.2.1 "1234567812345678" (by decide),
   C2_amended.2.2.2.1 "1234567" (by decide),
   C2_amended.2.2.2.2.1 (.obj [("ok", .str "v")]) rfl⟩

/-- C3: for every record whose `OperatorID` is alphanumeric of length at
least 5 and which carries customer identity in exactly one shape — flat
(`CustomerID` of length at least 7 and a 16-character `CustomerCardNumber`)
or nested (the same fields under `Customer`, optional `CustomerDetails`) —
`JSONSchema.validate` succeeds, with structure type flat respectively
nested. -/
theorem C3_valid_records (op cid card : String) (details : Option RawRecord)
    (h1 : 5 ≤ op.length) (h2 : op.data.all Char.isAlphanum = true)
    (h3 : 7 ≤ cid.length) (h4 : card.length = 16) :
    (∃ m, JSONSchema.validate (flatRecord op cid card) = .ok m
      ∧ m.structure_type = .flat)
    ∧ (∃ m, JSONSchema.validate (nestedRecord op cid card details) = .ok m
      ∧ m.structure_type = .nested) :=
  ⟨⟨_, validate_flatRecord op cid card h1 h2 h3 h4, rfl⟩,
   ⟨_, validate_nestedRecord op cid card details h1 h2 h3 h4, rfl⟩⟩

/-- C3 witness: concrete valid flat and nested records. -/
theorem C3_valid_records_witness :
    (∃ m, JSONSchema.validate (flatRecord "OP123" "CUST0001" "4111111111111111") = .ok m
      ∧ m.structure_type = .flat)
    ∧ (∃ m, JSONSchema.validate
        (nestedRecord "OP123" "CUST0001" "4111111111111111"
          (some [("note", JsonValue.str "vip")])) = .ok m
      ∧ m.structure_type = .nested) :=
  C3_valid_records "OP123" "CUST0001" "4111111111111111"
    (some [("note", JsonValue.str "vip")]) (by decide) (by decide) (by decide) (by decide)

/-- C4: a `process_file` call for a path already in the in-flight set
returns false and performs no mutation at all, so the terminal-folder counts
of two calls on the same in-flight path are those of the first call alone
(and any single call adds at most one terminal file, exactly one on the
fully successful path); and on every exit of a call that did accept the
path, the in-flight set is restored, so the path is removed again. -/
theorem C4_tracker (env : ProcEnv) (st : PipelineState) (file_path : String) :
    (file_path ∈ st.processing_files → process_file env st file_path = (false, st))
    ∧ ((process_file env st file_path).2).processing_files = st.processing_files
    ∧ ((process_file env st file_path).2).validatedCount
        + ((process_file env st file_path).2).returnsCount
        ≤ st.validatedCount + st.returnsCount + 1
    ∧ (file_path ∈ st.processing_files →
        ((process_file env st file_path).2).validatedCount
          + ((process_file env st file_path).2).returnsCount
          = st.validatedCount + st.returnsCount)
    ∧ (∀ data m, env.loadResult = .ok data → JSONSchema.validate data = .ok m →
        env.waitOk = true → env.copyOk = true → env.routeOk = true →
        file_path ∉ st.processing_files →
        ((process_file env st file_path).2).validatedCount = st.validatedCount + 1
        ∧ ((process_file env st file_path).2).returnsCount = st.returnsCount
        ∧ (process_file env st file_path).1 = env.thirdPartyOk) := by
  by_cases hmem : file_path ∈ st.processing_files
  · refine ⟨fun _ => by unfold process_file; rw [if_pos hmem], ?_, ?_, ?_, ?_⟩
    · unfold process_file; rw [if_pos hmem]
    · unfold process_file; rw [if_pos hmem]; dsimp only; omega
    · intro _; unfold process_file; rw [if_pos hmem]
    · intro data m _ _ _ _ _ hnm
      exact absurd hmem hnm
  · have hbody : process_file env st file_path
        = ((process_file_body env
              { st with processing_files := file_path :: st.processing_files }
              (env.uniqueId ++ "_" ++ file_path)).1,
           { (process_file_body env
                { st with processing_files := file_path :: st.processing_files }
                (env.uniqueId ++ "_" ++ file_path)).2 with
             processing_files :=
               ((process_file_body env
                  { st with processing_files := file_path :: st.processing_files }
                  (env.uniqueId ++ "_" ++ file_path)).2).processing_files.erase
                 file_path }) := by
      unfold process_file
      rw [if_neg hmem]
    refine ⟨fun h => absurd h hmem, ?_, ?_, fun h => absurd h hmem, ?_⟩
    · rw [hbody]
      dsimp only
      rw [process_file_body_tracker]
      exact List.erase_cons_head file_path st.processing_files
    · rw [hbody]
      dsimp only
      exact process_file_body_terminal_le env
        { st with processing_files := file_path :: st.processing_files }
        (env.uniqueId ++ "_" ++ file_path)
    · intro data m hload hvalid hw hc hr _
      rw [hbody]
      unfold process_file_body process_json_file handle_valid_file
      rw [hload, hw, hc]
      dsimp only
      rw [hvalid]
      dsimp only
      rw [hr]
      exact ⟨rfl, rfl, rfl⟩

/-- C4 witness: a duplicate call on an in-flight path is a no-op, and a
successful call routes exactly one file to the validated folder. -/
theorem C4_tracker_witness :
    process_file procEnvOk ⟨["p.json"], [], 0, 0, 0, 0⟩ "p.json"
      = (false, ⟨["p.json"], [], 0, 0, 0, 0⟩)
    ∧ ((process_file procEnvOk ⟨[], [], 0, 0, 0, 0⟩ "p.json").2).validatedCount = 1 :=
  ⟨(C4_tracker procEnvOk ⟨["p.json"], [], 0, 0, 0, 0⟩ "p.json").1 (by simp),
   ((C4_tracker procEnvOk ⟨[], [], 0, 0, 0, 0⟩ "p.json").2.2.2.2
      (flatRecord "OP123" "CUST0001" "4111111111111111")
      { OperatorID := "OP123", CustomerID := some "CUST0001",
        CustomerCardNumber := some "4111111111111111", Customer := none,
        Metadata := none, structure_type := .flat }
      rfl rfl rfl rfl rfl (by simp)).1⟩

/-- C5: counterexample. When the desired destination name and the freshly
drawn alternative name are both taken, `move_file` copies over the file at
the alternative name: the pre-existing file `ab12cd34_f.json` with content
`old2` is overwritten and no longer retrievable, refuting "collision
resolution never overwrites an existing file ... for every state of the
destination folder including one where the alternative name is also
taken". -/
theorem C5_counterexample :
    move_file clashEnv "newcontent" clashFolder "f.json" none
      = (true, [("f.json", "old1"), ("ab12cd34_f.json", "newcontent")])
    ∧ Folder.get [("f.json", "old1"), ("ab12cd34_f.json", "newcontent")] "ab12cd34_f.json"
      ≠ some "old2"
    ∧ clashFolder.get "ab12cd34_f.json" = some "old2" := ⟨rfl, by decide, rfl⟩

/-- C5 (amended): when a file exists at the desired destination name,
`move_file` retargets to a random alternative name before copying, and the
file at the desired name is never overwritten (it survives every outcome of
the routing); if the alternative name is free, both the pre-existing file
and the newly routed copy exist independently afterwards — but if the
alternative name is also taken, the copy overwrites that file (see the
counterexample). -/
theorem C5_amended (env : MoveEnv) (source : String) (folder : Folder)
    (filename c : String) (ma : Option Nat) (hdes : folder.get filename = some c) :
    (((move_file env source folder filename ma).2).get filename = some c)
    ∧ (env.copyFails 0 = false →
        move_file env source folder filename ma
          = (true, folder.put (env.altIds 0 ++ "_" ++ filename) source)
        ∧ (folder.put (env.altIds 0 ++ "_" ++ filename) source).get
            (env.altIds 0 ++ "_" ++ filename) = some source
        ∧ (folder.put (env.altIds 0 ++ "_" ++ filename) source).get filename = some c) := by
  constructor
  · exact moveLoop_preserves env source filename (effectiveMoveAttempts ma) folder
      filename 0 c hdes
  · intro hcf
    obtain ⟨k, hk⟩ : ∃ k, effectiveMoveAttempts ma = k + 1 :=
      ⟨effectiveMoveAttempts ma - 1, by have := one_le_effectiveMoveAttempts ma; omega⟩
    refine ⟨?_, Folder.get_put_self folder _ source, ?_⟩
    · unfold move_file
      rw [hk, moveLoop, if_neg (by simp [hcf])]
      rw [if_pos (by rw [hdes]; rfl)]
    · exact (Folder.get_put_ne folder _ source filename
        (alt_ne_filename (env.altIds 0) filename).symm).trans hdes

/-- C5 witness: the amended theorem applied to a concrete folder with a
collision at the desired name and a free alternative name. -/
theorem C5_amended_witness :
    (((move_file clashEnv "newcontent" [("f.json", "old1")] "f.json" none).2).get "f.json"
      = some "old1")
    ∧ move_file clashEnv "newcontent" [("f.json", "old1")] "f.json" none
      = (true, Folder.put [("f.json", "old1")] "ab12cd34_f.json" "newcontent") :=
  ⟨(C5_amended clashEnv "newcontent" [("f.json", "old1")] "f.json" "old1" none rfl).1,
   ((C5_amended clashEnv "newcontent" [("f.json", "old1")] "f.json" "old1" none rfl).2
      rfl).1⟩

/-- C6: counterexample. With `max_attempts = 0` the claim requires a false
result without polling, but `max_attempts or config.FILE_ACCESS_MAX_ATTEMPTS`
treats 0 as falsy, so the function polls with the default budget of 10 and
returns true on a readable file after one poll. -/
theorem C6_counterexample :
    wait_for_file_access (fun _ => .readable) (some 0) = (true, 1)
    ∧ ((true, 1) : Bool × Nat) ≠ (false, 0) := ⟨rfl, by decide⟩

/-- C6 (amended): for a positive `max_attempts`, `wait_for_file_access`
polls at most `max_attempts` times, retries while the path does not exist or
the 1-byte read fails, returns true at the first readable attempt (having
polled exactly that many times), and returns false after exhausting all
attempts exactly when no attempt was readable; `max_attempts = 0`, like
`None`, falls back to the configured default of 10. -/
theorem C6_amended (status : Nat → AccessStatus) (n : Nat) (hn : 0 < n) (i : Nat) :
    ((wait_for_file_access status (some n)).2 ≤ n)
    ∧ ((wait_for_file_access status (some n)).1 = true ↔ ∃ j < n, status j = .readable)
    ∧ (i < n → status i = .readable → (∀ j < i, status j ≠ .readable) →
        wait_for_file_access status (some n) = (true, i + 1))
    ∧ ((∀ j < n, status j ≠ .readable) → wait_for_file_access status (some n) = (false, n))
    ∧ effectiveAccessAttempts (some 0) = FILE_ACCESS_MAX_ATTEMPTS
    ∧ effectiveAccessAttempts none = FILE_ACCESS_MAX_ATTEMPTS := by
  have heff : effectiveAccessAttempts (some n) = n := by
    cases n with
    | zero => omega
    | succ k => rfl
  unfold wait_for_file_access
  rw [heff]
  refine ⟨waitLoop_polls_le status n 0, ?_, ?_, ?_, rfl, rfl⟩
  · rw [waitLoop_true_iff status n 0]
    constructor
    · rintro ⟨j, hj, hr⟩; exact ⟨j, hj, by simpa using hr⟩
    · rintro ⟨j, hj, hr⟩; exact ⟨j, hj, by simpa using hr⟩
  · intro hi hr hmin
    exact waitLoop_first status n 0 i hi (by simpa using hr) (fun j hj => by simpa using hmin j hj)
  · intro hall
    exact waitLoop_exhausted status n 0 (fun j hj => by simpa using hall j hj)

/-- C6 witness: a file that becomes readable at the third poll. -/
theorem C6_amended_witness :
    wait_for_file_access
        (fun k => if k < 2 then AccessStatus.notExists else AccessStatus.readable)
        (some 5) = (true, 3) :=
  (C6_amended (fun k => if k < 2 then AccessStatus.notExists else AccessStatus.readable)
      5 (by decide) 2).2.2.1 (by decide) (by decide)
    (by intro j hj; interval_cases j <;> decide)

/-- C7: if the byte copy of `safe_file_copy` fails, the function returns
failure and never attempts deletion of the original; if the copy succeeds
but deleting the original fails, the failure is swallowed (logged) and the
function still returns success, leaving the file duplicated. -/
theorem C7_stage (env : CopyEnv) :
    (env.copyOk = false →
      safe_file_copy env
        = { ret := false, copied := false, removeAttempted := false,
            originalRemoved := false })
    ∧ (env.copyOk = true →
      (safe_file_copy env).ret = true ∧ (safe_file_copy env).copied = true)
    ∧ (env.copyOk = true → env.removeOk = false →
      safe_file_copy env
        = { ret := true, copied := true, removeAttempted := true,
            originalRemoved := false }) := by
  obtain ⟨c, r⟩ := env
  cases c <;> cases r <;> simp [safe_file_copy]

/-- C7 witness: both oracle outcomes evaluated concretely. -/
theorem C7_stage_witness :
    safe_file_copy { copyOk := false, removeOk := true }
      = { ret := false, copied := false, removeAttempted := false, originalRemoved := false }
    ∧ safe_file_copy { copyOk := true, removeOk := false }
      = { ret := true, copied := true, removeAttempted := true, originalRemoved := false } :=
  ⟨(C7_stage { copyOk := false, removeOk := true }).1 rfl,
   (C7_stage { copyOk := true, removeOk := false }).2.2 rfl rfl⟩

/-- C8: startup recovery moves exactly the regular files of the processing
area whose move succeeds to the returns folder — all of them when no move
fails — and reports precisely the number of files moved; in the startup
trace of `run_file_processor` the cleanup happens strictly before the watch
starts. -/
theorem C8_recovery (moveOk : String → Bool) (entries : List DirEntry) :
    ((cleanup_processing_folder moveOk entries).2
      = (entries.filter (fun e => e.isFile && moveOk e.name)).map (fun e => e.name))
    ∧ ((cleanup_processing_folder moveOk entries).1
      = (cleanup_processing_folder moveOk entries).2.length)
    ∧ ((∀ e ∈ entries, moveOk e.name = true) →
      (cleanup_processing_folder moveOk entries).2
        = (entries.filter (fun e => e.isFile)).map (fun e => e.name))
    ∧ ((run_file_processor true true (cleanup_processing_folder moveOk entries).1).1
      = [.setupLogging, .registerSignals, .checkRequirements, .ensureDirs,
         .cleanupProcessing (cleanup_processing_folder moveOk entries).1,
         .scheduleObserver, .startWatch, .processExisting])
    ∧ ((run_file_processor true true (cleanup_processing_folder moveOk entries).1).1.get? 4
        = some (.cleanupProcessing (cleanup_processing_folder moveOk entries).1)
      ∧ (run_file_processor true true (cleanup_processing_folder moveOk entries).1).1.get? 6
        = some .startWatch) := by
  refine ⟨?_, ?_, ?_, rfl, rfl, rfl⟩
  · induction entries with
    | nil => rfl
    | cons e rest ih =>
        rw [cleanup_processing_folder]
        cases h : e.isFile && moveOk e.name <;> simp [h, ih]
  · induction entries with
    | nil => rfl
    | cons e rest ih =>
        rw [cleanup_processing_folder]
        cases h : e.isFile && moveOk e.name <;> simp [h, ih]
  · intro hall
    induction entries with
    | nil => rfl
    | cons e rest ih =>
        rw [cleanup_processing_folder]
        have he := hall e (List.mem_cons_self e rest)
        cases hf : e.isFile <;>
          simp [hf, he, ih (fun x hx => hall x (List.mem_cons_of_mem e hx))]

/-- C8 witness: a concrete processing-folder listing with a subdirectory. -/
theorem C8_recovery_witness :
    (cleanup_processing_folder (fun _ => true)
        [⟨"a.json", true⟩, ⟨"sub", false⟩, ⟨"b.json", true⟩]).2
      = ["a.json", "b.json"] :=
  ((C8_recovery (fun _ => true)
      [⟨"a.json", true⟩, ⟨"sub", false⟩, ⟨"b.json", true⟩]).2.2.1
    (fun _ _ => rfl)).trans (by decide)

/-- C9: counterexample. A record that both lacks customer identity and has
an invalid (too short) `OperatorID` yields only the single root
"missing customer identity" error: the `pre` root validator short-circuits
the whole validation, so the `OperatorID` violation is not reported,
refuting "does not short-circuit ... reports both violations". -/
theorem C9_counterexample :
    JSONSchema.validate missingIdentityBadOperator
      = .error [.rootStruct .missingIdentity]
    ∧ FieldError.tooShort ["OperatorID"] 5
        ∉ [FieldError.rootStruct StructError.missingIdentity]
    ∧ ([FieldError.rootStruct StructError.missingIdentity] : List FieldError).length = 1 :=
  ⟨rfl, by decide, rfl⟩

/-- C9 (amended): once the structure check passes, field-constraint
violations do accumulate — a record with a too-short `OperatorID` and a
too-short `CustomerID` reports both in one pass — but an error raised by the
`pre` root validator `check_structure` short-circuits validation and is
reported alone. -/
theorem C9_amended :
    (∀ (values : RawRecord) (e : StructError), check_structure values = .error e →
      JSONSchema.validate values = .error [.rootStruct e])
    ∧ (∀ op cid : String, op.length < 5 → cid.length < 7 →
      JSONSchema.validate (flatRecord op cid "4111111111111111")
        = .error [.tooShort ["OperatorID"] 5, .tooShort ["CustomerID"] 7]) := by
  constructor
  · intro values e h
    unfold JSONSchema.validate
    rw [h]
  · intro op cid h1 h2
    unfold JSONSchema.validate
    rw [show check_structure (flatRecord op cid "4111111111111111") = .ok .flat from rfl]
    rw [validateOperatorID_short (flatRecord op cid "4111111111111111") op rfl h1,
        validateOptCustomerID_short (flatRecord op cid "4111111111111111") cid rfl h2,
        validateOptCard_ok (flatRecord op cid "4111111111111111") "4111111111111111" rfl
          (by decide)]
    rfl

/-- C9 witness: the amended theorem applied to concrete records. -/
theorem C9_amended_witness :
    JSONSchema.validate [("OperatorID", JsonValue.str "op")]
      = .error [.rootStruct .missingIdentity]
    ∧ JSONSchema.validate (flatRecord "op" "C1" "4111111111111111")
      = .error [.tooShort ["OperatorID"] 5, .tooShort ["CustomerID"] 7] :=
  ⟨C9_amended.1 [("OperatorID", JsonValue.str "op")] .missingIdentity rfl,
   C9_amended.2 "op" "C1" (by decide) (by decide)⟩

/-- C10: counterexample. For the validated 16-character card
`"1234********5678"`, `get_card_number_masked` returns exactly the raw card
value, refuting "never returning the full card value". -/
theorem C10_counterexample :
    (JSONSchema.validate (flatRecord "OP123" "CUST0001" "1234********5678")).map
        JSONSchemaModel.get_card_number_masked
      = .ok (some "1234********5678") := by
  rw [validate_flatRecord "OP123" "CUST0001" "1234********5678" (by decide) (by decide)
      (by decide) (by decide)]
  rfl

/-- C10 (amended): for every validated record whose 16-character card is
selected by its structure type, `get_card_number_masked` returns the first 4
characters, then exactly 8 asterisks, then the last 4 characters; the result
differs from the raw card value whenever the middle 8 characters of the card
are not themselves all asterisks (and equals it otherwise, as the
counterexample shows). -/
theorem C10_amended (m : JSONSchemaModel) (raw : String)
    (hcard : (match m.structure_type with
        | .nested => m.Customer.map (fun c => c.CustomerCardNumber)
        | .flat => m.CustomerCardNumber) = some raw)
    (hlen : raw.length = 16) :
    m.get_card_number_masked
      = some (String.mk (raw.data.take 4) ++ eightStars ++ String.mk (raw.data.drop 12))
    ∧ ((raw.data.drop 4).take 8 ≠ List.replicate 8 '*' →
        m.get_card_number_masked ≠ some raw) := by
  have h16 : raw.data.length = 16 := hlen
  have hne : raw ≠ "" := by
    intro h
    rw [h] at h16
    simp at h16
  have heq : m.get_card_number_masked
      = some (String.mk (raw.data.take 4) ++ eightStars ++ String.mk (raw.data.drop 12)) := by
    unfold JSONSchemaModel.get_card_number_masked
    rw [hcard]
    dsimp only
    rw [if_neg hne, show raw.data.length - 4 = 12 from by omega]
  refine ⟨heq, fun hmid hcontra => ?_⟩
  rw [heq] at hcontra
  have hx := Option.some.inj hcontra
  have hdata : raw.data.take 4 ++ (List.replicate 8 '*' ++ raw.data.drop 12) = raw.data := by
    have := congrArg String.data hx
    simpa [List.append_assoc] using this
  have hA : (raw.data.take 4).length = 4 := by
    rw [List.length_take]
    omega
  have hdrop : raw.data.drop 4 = List.replicate 8 '*' ++ raw.data.drop 12 := by
    conv_lhs => rw [← hdata]
    exact List.drop_left' hA
  apply hmid
  rw [hdrop]
  exact List.take_left' (by simp)

/-- C10 witness: the amended theorem at a concrete all-digit card. -/
theorem C10_amended_witness :
    ({ OperatorID := "OP123", CustomerID := some "CUST0001",
          CustomerCardNumber := some "4111111111111111", Customer := none,
          Metadata := none, structure_type := .flat } : JSONSchemaModel).get_card_number_masked
        = some (String.mk ("4111111111111111".data.take 4) ++ eightStars
            ++ String.mk ("4111111111111111".data.drop 12))
    ∧ ({ OperatorID := "OP123", CustomerID := some "CUST0001",
          CustomerCardNumber := some "4111111111111111", Customer := none,
          Metadata := none, structure_type := .flat } : JSONSchemaModel).get_card_number_masked
        ≠ some "4111111111111111" :=
  ⟨(C10_amended
      { OperatorID := "OP123", CustomerID := some "CUST0001",
        CustomerCardNumber := some "4111111111111111", Customer := none,
        Metadata := none, structure_type := .flat } "4111111111111111" rfl (by decide)).1,
   (C10_amended
      { OperatorID := "OP123", CustomerID := some "CUST0001",
        CustomerCardNumber := some "4111111111111111", Customer := none,
        Metadata := none, structure_type := .flat } "4111111111111111" rfl (by decide)).2
     (by decide)⟩
